import Mathlib

/-!
Shallow embedding of `src/download.py` from the Amsterdam-SVI repository.

The module is a thin HTTP client: a GET helper that converts transport and
HTTP-status failures into `None`, two URL builders, a paginated panorama-ID
fetcher, a panorama-image fetcher, a building search, and a building-polygon
extractor.

Modelling choices:
  * JSON values are the inductive type `Json`.
  * Python subscription, `.get`, iteration, `len` and truthiness are embedded
    as functions on `Json`; operations that can raise (KeyError, TypeError,
    IndexError, AttributeError) return `Except PyErr`.
  * The network is an oracle `net : Json → Option Json` standing for
    `send_get_request` as seen by its callers: `none` is the `None` returned
    on a failed request, `some j` is the parsed JSON body.
  * The `while pano_url` pagination loop is embedded with explicit fuel; the
    outer `Option` of its result is `none` only when fuel runs out.
  * Python `dict` accumulation is an association list with Python's
    insertion-order update semantics (`dictInsert`).
-/

set_option autoImplicit false

/-- The Python exception kinds the embedded operations can raise. -/
inductive PyErr where
  | keyError
  | typeError
  | indexError
  | attrError
  | valueError
  deriving Repr, DecidableEq

/-- JSON values (also used for the Python values flowing through the code). -/
inductive Json where
  | null : Json
  | str : String → Json
  | num : Int → Json
  | arr : List Json → Json
  | obj : List (String × Json) → Json
  deriving Repr

/-- Python `==` on dict keys. Only hashable values ever become dict keys in
this code (the embedding checks hashability before insertion), and the only
hashable values of `Json` are `null`, strings and numbers, so no structural
recursion is needed. -/
def keyEqb : Json → Json → Bool
  | .null, .null => true
  | .str a, .str b => a == b
  | .num a, .num b => a == b
  | _, _ => false

/-- First-match lookup of a key in the field list of a JSON object. -/
def lookupField : List (String × Json) → String → Option Json
  | [], _ => none
  | (k, v) :: rest, key => if k = key then some v else lookupField rest key

/-- Python subscription `j[key]` with a string key: KeyError on a dict without
the key, TypeError on non-dict values. -/
def Json.index (j : Json) (key : String) : Except PyErr Json :=
  match j with
  | .obj fields =>
    match lookupField fields key with
    | some v => .ok v
    | none => .error .keyError
  | _ => .error .typeError

/-- Python subscription `j[n]` with an integer index: list indexing with
IndexError out of range, string indexing yielding a one-character string,
KeyError on dicts (whose keys here are strings), TypeError otherwise. -/
def Json.indexNat (j : Json) (n : Nat) : Except PyErr Json :=
  match j with
  | .arr xs =>
    match xs.get? n with
    | some v => .ok v
    | none => .error .indexError
  | .str s =>
    match s.toList.get? n with
    | some c => .ok (.str (String.mk [c]))
    | none => .error .indexError
  | .obj _ => .error .keyError
  | _ => .error .typeError

/-- Python `j.get(key, default)`: only dicts have `.get`, anything else
raises AttributeError. -/
def Json.getD (j : Json) (key : String) (default : Json) : Except PyErr Json :=
  match j with
  | .obj fields => .ok ((lookupField fields key).getD default)
  | _ => .error .attrError

/-- Python truthiness of the embedded values. -/
def Json.truthy : Json → Bool
  | .null => false
  | .str s => s != ""
  | .num n => n != 0
  | .arr xs => !xs.isEmpty
  | .obj fields => !fields.isEmpty

/-- Python iteration `for item in j`: lists yield elements, dicts yield their
keys, strings yield one-character strings, everything else raises TypeError. -/
def Json.iterElems : Json → Except PyErr (List Json)
  | .arr xs => .ok xs
  | .obj fields => .ok (fields.map (fun p => Json.str p.1))
  | .str s => .ok (s.toList.map (fun c => Json.str (String.mk [c])))
  | _ => .error .typeError

/-- Python `len(j)`: TypeError on values without a length. -/
def Json.len : Json → Except PyErr Nat
  | .arr xs => .ok xs.length
  | .str s => .ok s.length
  | .obj fields => .ok fields.length
  | _ => .error .typeError

/-- Whether a value may be used as a Python dict key (lists and dicts are
unhashable). -/
def Json.hashable : Json → Bool
  | .arr _ => false
  | .obj _ => false
  | _ => true

/-- The Python value a caller of `send_get_request` sees: `None` on failure,
the parsed body otherwise. -/
def optToPy : Option Json → Json
  | none => .null
  | some j => j

/-- Outcome of the underlying `requests.get` call: a transport-level failure
(raising `requests.exceptions.RequestException`), or a response with a final
HTTP status code and a body. -/
inductive HttpOutcome where
  | transportError
  | response (status : Nat) (body : String)

/-- Embedding of `send_get_request` (src/download.py lines 13-29). The
transport is the oracle `http`; `parse` stands for `json.loads`, whose
failure is a ValueError that the `except requests.exceptions.RequestException`
clause does not catch. `response.raise_for_status()` raises (and is caught,
yielding `.ok none`) exactly for status codes in [400, 600). -/
def send_get_request (http : String → HttpOutcome)
    (parse : String → Except PyErr Json) (url : String) :
    Except PyErr (Option Json) :=
  match http url with
  | .transportError => .ok none
  | .response status body =>
    if 400 ≤ status ∧ status < 600 then .ok none
    else
      match parse body with
      | .ok j => .ok (some j)
      | .error e => .error e

/-- Embedding of `construct_pano_url` (src/download.py lines 31-44). -/
def construct_pano_url (mission_year : Int) (bbox : Int × Int × Int × Int) :
    String :=
  let base_url := "https://api.data.amsterdam.nl/panorama/panoramas/"
  let params := "tags=mission-" ++ toString mission_year ++ "&bbox="
    ++ toString bbox.1 ++ "," ++ toString bbox.2.1 ++ ","
    ++ toString bbox.2.2.1 ++ "," ++ toString bbox.2.2.2 ++ "&srid=28992"
  base_url ++ "?" ++ params

/-- The list comprehension `[item['pano_id'] for item in panoramas]`,
evaluated left to right, propagating the first lookup error. -/
def panoIdsOf : List Json → Except PyErr (List Json)
  | [] => .ok []
  | item :: rest =>
    match item.index "pano_id" with
    | .error e => .error e
    | .ok i =>
      match panoIdsOf rest with
      | .error e => .error e
      | .ok is => .ok (i :: is)

/-- One iteration of the pagination loop body (src/download.py lines 59-62):
extract the embedded panorama IDs of a page and the next-page URL,
`data['_links'].get('next', {}).get('href')`. -/
def pageStep (data : Json) : Except PyErr (List Json × Json) :=
  match data.index "_embedded" with
  | .error e => .error e
  | .ok emb =>
    match emb.index "panoramas" with
    | .error e => .error e
    | .ok pans =>
      match pans.iterElems with
      | .error e => .error e
      | .ok elems =>
        match panoIdsOf elems with
        | .error e => .error e
        | .ok ids =>
          match data.index "_links" with
          | .error e => .error e
          | .ok links =>
            match links.getD "next" (Json.obj []) with
            | .error e => .error e
            | .ok nextObj =>
              match nextObj.getD "href" Json.null with
              | .error e => .error e
              | .ok href => .ok (ids, href)

/-- The `while pano_url` loop of `fetch_panorama_ids` (src/download.py lines
54-62), with explicit fuel; `none` means the fuel ran out before the loop
terminated. -/
def fetchPanoLoop (net : Json → Option Json) :
    Nat → Json → List Json → Option (Except PyErr (List Json))
  | 0, _, _ => none
  | fuel + 1, pano_url, acc =>
    if pano_url.truthy then
      match net pano_url with
      | none => some (.ok acc)
      | some data =>
        match pageStep data with
        | .error e => some (.error e)
        | .ok (ids, nextUrl) => fetchPanoLoop net fuel nextUrl (acc ++ ids)
    else some (.ok acc)

/-- Embedding of `fetch_panorama_ids` (src/download.py lines 46-64). -/
def fetch_panorama_ids (net : Json → Option Json) (fuel : Nat)
    (mission_year : Int) (bbox : Int × Int × Int × Int) :
    Option (Except PyErr (List Json)) :=
  fetchPanoLoop net fuel (.str (construct_pano_url mission_year bbox)) []

/-- The detail URL `f"https://api.data.amsterdam.nl/panorama/panoramas/{pano_id}/"`. -/
def panoDetailUrl (pano_id : String) : String :=
  "https://api.data.amsterdam.nl/panorama/panoramas/" ++ pano_id ++ "/"

/-- Embedding of `fetch_panorama_image` (src/download.py lines 66-77). The
second, unguarded `requests.get` plus `Image.open` step is the oracle
`imgFetch`, applied to the `equirectangular_medium` href; it may raise. -/
def fetch_panorama_image {Img : Type} (net : Json → Option Json)
    (imgFetch : Json → Except PyErr Img) (pano_id : String) :
    Except PyErr (Option Img × Option Json) :=
  match net (.str (panoDetailUrl pano_id)) with
  | none => .ok (none, none)
  | some pano_data =>
    match pano_data.index "geometry" with
    | .error e => .error e
    | .ok geom =>
      match geom.index "coordinates" with
      | .error e => .error e
      | .ok image_location =>
        match pano_data.index "_links" with
        | .error e => .error e
        | .ok links =>
          match links.index "equirectangular_medium" with
          | .error e => .error e
          | .ok eqm =>
            match eqm.index "href" with
            | .error e => .error e
            | .ok href =>
              match imgFetch href with
              | .error e => .error e
              | .ok image => .ok (some image, some image_location)

/-- The BAG search URL built inside `search_buildings`. -/
def constructBagUrl (observer : Int × Int) (radius : Int) : String :=
  "https://api.data.amsterdam.nl/bag/v1.1/pand/?format=json&locatie="
    ++ toString observer.1 ++ "%2C" ++ toString observer.2 ++ "%2C"
    ++ toString radius

/-- Embedding of `search_buildings` (src/download.py lines 79-85): it indexes
`['results']` into the helper's result without checking for `None`. -/
def search_buildings (net : Json → Option Json) (observer : Int × Int)
    (radius : Int) : Except PyErr Json :=
  (optToPy (net (.str (constructBagUrl observer radius)))).index "results"

/-- Python dict assignment `d[k] = v` on an insertion-ordered dict: an
existing key keeps its position and gets the new value, a new key is
appended. -/
def dictInsert (d : List (Json × Json)) (k v : Json) : List (Json × Json) :=
  if d.any (fun p => keyEqb p.1 k) then
    d.map (fun p => if keyEqb p.1 k then (k, v) else p)
  else d ++ [(k, v)]

/-- The loop of `fetch_building_polygons` (src/download.py lines 92-101) over
the remaining summary records, carrying the accumulated dict. -/
def fetchBuildingLoop (net : Json → Option Json) :
    List Json → List (Json × Json) → Except PyErr (List (Json × Json))
  | [], acc => .ok acc
  | item :: rest, acc =>
    match item.index "_links" with
    | .error e => .error e
    | .ok links =>
      match links.index "self" with
      | .error e => .error e
      | .ok selfLink =>
        match selfLink.index "href" with
        | .error e => .error e
        | .ok href =>
          match net href with
          | none => fetchBuildingLoop net rest acc
          | some building_details =>
            match building_details.index "pandidentificatie" with
            | .error e => .error e
            | .ok building_id =>
              match building_details.index "geometrie" with
              | .error e => .error e
              | .ok geom =>
                match geom.index "coordinates" with
                | .error e => .error e
                | .ok coords =>
                  match coords.indexNat 0 with
                  | .error e => .error e
                  | .ok polygon =>
                    match polygon.len with
                    | .error e => .error e
                    | .ok n =>
                      if n > 2 ∧ building_id.truthy then
                        if building_id.hashable then
                          fetchBuildingLoop net rest
                            (dictInsert acc building_id polygon)
                        else .error .typeError
                      else fetchBuildingLoop net rest acc

/-- Embedding of `fetch_building_polygons` (src/download.py lines 87-103). -/
def fetch_building_polygons (net : Json → Option Json)
    (building_data : List Json) : Except PyErr (List (Json × Json)) :=
  fetchBuildingLoop net building_data []

/-!
Fixtures and pagination chains used to state the properties.
-/

/-- A well-formed pagination page: `_embedded.panoramas` holds one entry per
panorama ID, and `_links` carries a `next.href` exactly when `next` is given. -/
def mkPage (ids : List Json) (next : Option String) : Json :=
  Json.obj [("_embedded", Json.obj [("panoramas",
      Json.arr (ids.map (fun i => Json.obj [("pano_id", i)])))]),
    ("_links", match next with
      | some u => Json.obj [("next", Json.obj [("href", Json.str u)])]
      | none => Json.obj [])]

/-- `Serves net u pages` states that starting from URL `u` the network serves
exactly the given chain of well-formed pages: every page except the last
carries a (non-empty) next link, the last carries none. -/
inductive Serves (net : Json → Option Json) : String → List (List Json) → Prop where
  | last : ∀ u ids, net (Json.str u) = some (mkPage ids none) →
      Serves net u [ids]
  | cons : ∀ u ids u' rest, net (Json.str u) = some (mkPage ids (some u')) →
      u' ≠ "" → Serves net u' rest → Serves net u (ids :: rest)

/-- `ServesFail net u pages` states that from URL `u` the network serves the
given well-formed pages, each with a next link, and then fails (returns the
absent value) on the URL following the last one. -/
inductive ServesFail (net : Json → Option Json) : String → List (List Json) → Prop where
  | here : ∀ u, net (Json.str u) = none → ServesFail net u []
  | cons : ∀ u ids u' rest, net (Json.str u) = some (mkPage ids (some u')) →
      u' ≠ "" → ServesFail net u' rest → ServesFail net u (ids :: rest)

/-- Extracting the pano IDs of a well-formed entry list recovers the IDs. -/
theorem panoIdsOf_mkEntries (ids : List Json) :
    panoIdsOf (ids.map (fun i => Json.obj [("pano_id", i)])) = .ok ids := by
  induction ids with
  | nil => rfl
  | cons i is ih => simp [panoIdsOf, Json.index, lookupField, ih]

/-- `pageStep` on a well-formed page yields its IDs and its next href
(`null` when the page has no next link). -/
theorem pageStep_mkPage (ids : List Json) (next : Option String) :
    pageStep (mkPage ids next) =
      .ok (ids, match next with
        | some u => Json.str u
        | none => Json.null) := by
  cases next <;>
    simp [pageStep, mkPage, Json.index, lookupField, Json.iterElems,
      Json.getD, panoIdsOf_mkEntries]

/-- The loop returns the accumulator at a falsy URL. -/
theorem fetchPanoLoop_not_truthy {net : Json → Option Json} {url : Json}
    (h : url.truthy = false) (fuel : Nat) (acc : List Json) (hf : 1 ≤ fuel) :
    fetchPanoLoop net fuel url acc = some (Except.ok acc) := by
  cases fuel with
  | zero => omega
  | succ f => simp [fetchPanoLoop, h]

/-- The loop on a served chain of well-formed pages appends all their IDs to
the accumulator, given enough fuel. -/
theorem fetchPanoLoop_serves {net : Json → Option Json} {u : String}
    {pages : List (List Json)} (hs : Serves net u pages) :
    u ≠ "" → ∀ fuel acc, pages.length + 1 ≤ fuel →
    fetchPanoLoop net fuel (Json.str u) acc =
      some (Except.ok (acc ++ pages.flatten)) := by
  induction hs with
  | last u ids hnet =>
    intro hu fuel acc hfuel
    cases fuel with
    | zero => omega
    | succ f =>
      have htr : (Json.str u).truthy = true := by
        simp [Json.truthy, hu]
      rw [fetchPanoLoop]
      simp only [htr, if_true, hnet, pageStep_mkPage]
      rw [fetchPanoLoop_not_truthy (show Json.null.truthy = false from rfl)
        f (acc ++ ids) (by simpa using hfuel)]
      simp
  | cons u ids u' rest hnet hu' _ ih =>
    intro hu fuel acc hfuel
    cases fuel with
    | zero => omega
    | succ f =>
      have htr : (Json.str u).truthy = true := by
        simp [Json.truthy, hu]
      rw [fetchPanoLoop]
      simp only [htr, if_true, hnet, pageStep_mkPage]
      rw [ih hu' f (acc ++ ids) (by simpa using hfuel)]
      simp

/-- The loop on a chain that ends in a failed GET returns exactly the IDs of
the prior successful pages, given enough fuel. -/
theorem fetchPanoLoop_servesFail {net : Json → Option Json} {u : String}
    {pages : List (List Json)} (hs : ServesFail net u pages) :
    u ≠ "" → ∀ fuel acc, pages.length + 1 ≤ fuel →
    fetchPanoLoop net fuel (Json.str u) acc =
      some (Except.ok (acc ++ pages.flatten)) := by
  induction hs with
  | here u hnet =>
    intro hu fuel acc hfuel
    cases fuel with
    | zero => omega
    | succ f =>
      have htr : (Json.str u).truthy = true := by
        simp [Json.truthy, hu]
      rw [fetchPanoLoop]
      simp [htr, hnet]
  | cons u ids u' rest hnet hu' _ ih =>
    intro hu fuel acc hfuel
    cases fuel with
    | zero => omega
    | succ f =>
      have htr : (Json.str u).truthy = true := by
        simp [Json.truthy, hu]
      rw [fetchPanoLoop]
      simp only [htr, if_true, hnet, pageStep_mkPage]
      rw [ih hu' f (acc ++ ids) (by simpa using hfuel)]
      simp

/-- The constructed panorama URL is never the empty string. -/
theorem construct_pano_url_ne_empty (mission_year : Int)
    (bbox : Int × Int × Int × Int) :
    construct_pano_url mission_year bbox ≠ "" := by
  intro h
  have hlen := congrArg String.length h
  simp [construct_pano_url, String.length_append] at hlen
  exact absurd hlen.1 (by decide)

/-- Concrete two-page server for the pagination witness. -/
def pagesNetTwo : Json → Option Json := fun j =>
  match j with
  | .str s =>
    if s = construct_pano_url 2021 (1, 2, 3, 4) then
      some (mkPage [Json.str "a", Json.str "b"] (some "page2"))
    else if s = "page2" then some (mkPage [Json.str "c"] none)
    else none
  | _ => none

/-- Concrete server whose second page request fails, for the short-circuit
witness. -/
def pagesNetFailSecond : Json → Option Json := fun j =>
  match j with
  | .str s =>
    if s = construct_pano_url 2021 (1, 2, 3, 4) then
      some (mkPage [Json.str "a"] (some "page2"))
    else none
  | _ => none

/-- C1: for every chain of pagination pages in which each page except the
last supplies a next-page link, `fetch_panorama_ids` returns exactly the
concatenation of the `pano_id` values of all pages, in server-dictated order
across pages. -/
theorem fetch_panorama_ids_concat (net : Json → Option Json)
    (mission_year : Int) (bbox : Int × Int × Int × Int)
    (pages : List (List Json)) (fuel : Nat)
    (hs : Serves net (construct_pano_url mission_year bbox) pages)
    (hfuel : pages.length + 1 ≤ fuel) :
    fetch_panorama_ids net fuel mission_year bbox =
      some (Except.ok pages.flatten) := by
  have h := fetchPanoLoop_serves hs
    (construct_pano_url_ne_empty mission_year bbox) fuel [] hfuel
  simpa [fetch_panorama_ids] using h

/-- Witness for C1: a concrete two-page chain yields the concatenated IDs. -/
theorem fetch_panorama_ids_concat_witness :
    fetch_panorama_ids pagesNetTwo 3 2021 (1, 2, 3, 4) =
      some (Except.ok [Json.str "a", Json.str "b", Json.str "c"]) := by
  have h := fetch_panorama_ids_concat pagesNetTwo 2021 (1, 2, 3, 4)
    [[Json.str "a", Json.str "b"], [Json.str "c"]] 3
    (Serves.cons _ _ "page2" _ (by rfl) (by decide)
      (Serves.last _ _ (by rfl)))
    (by decide)
  simpa using h

/-- C2: if a GET fails mid-pagination after some successful pages,
`fetch_panorama_ids` returns exactly the IDs accumulated from the prior
successful pages, as a normal (non-error) result. -/
theorem fetch_panorama_ids_partial_on_failure (net : Json → Option Json)
    (mission_year : Int) (bbox : Int × Int × Int × Int)
    (pages : List (List Json)) (fuel : Nat)
    (hs : ServesFail net (construct_pano_url mission_year bbox) pages)
    (hfuel : pages.length + 1 ≤ fuel) :
    fetch_panorama_ids net fuel mission_year bbox =
      some (Except.ok pages.flatten) := by
  have h := fetchPanoLoop_servesFail hs
    (construct_pano_url_ne_empty mission_year bbox) fuel [] hfuel
  simpa [fetch_panorama_ids] using h

/-- Witness for C2: one successful page followed by a failed GET yields
exactly the first page's IDs. -/
theorem fetch_panorama_ids_partial_on_failure_witness :
    fetch_panorama_ids pagesNetFailSecond 2 2021 (1, 2, 3, 4) =
      some (Except.ok [Json.str "a"]) := by
  have h := fetch_panorama_ids_partial_on_failure pagesNetFailSecond
    2021 (1, 2, 3, 4) [[Json.str "a"]] 2
    (ServesFail.cons _ _ "page2" _ (by rfl) (by decide)
      (ServesFail.here _ (by rfl)))
    (by decide)
  simpa using h

/-- C7: for mission_year 2021 and bbox (100, 200, 300, 400) the constructed
panorama URL is the base URL plus query, and it contains the exact substring
`tags=mission-2021&bbox=100,200,300,400&srid=28992`; the builder is a pure
function of its arguments. -/
theorem construct_pano_url_2021 :
    construct_pano_url 2021 (100, 200, 300, 400) =
      "https://api.data.amsterdam.nl/panorama/panoramas/?tags=mission-2021&bbox=100,200,300,400&srid=28992" ∧
    ∃ pre post, construct_pano_url 2021 (100, 200, 300, 400) =
      pre ++ "tags=mission-2021&bbox=100,200,300,400&srid=28992" ++ post :=
  ⟨by decide, ⟨"https://api.data.amsterdam.nl/panorama/panoramas/?", "",
    by decide⟩⟩

/-- A building summary record carrying its self link. -/
def mkSummary (href : Json) : Json :=
  Json.obj [("_links", Json.obj [("self", Json.obj [("href", href)])])]

/-- A building detail record with an identifier and a geometry whose
coordinates hold the outer ring `polygon` followed by further rings. -/
def mkDetails (building_id : Json) (polygon : Json) (rings : List Json) :
    Json :=
  Json.obj [("pandidentificatie", building_id),
    ("geometrie", Json.obj [("coordinates", Json.arr (polygon :: rings))])]

/-- Processing one summary whose detail GET yields a well-formed record
inserts the identifier/polygon pair exactly when the retention filter
passes. -/
theorem fetchBuildingLoop_step (net : Json → Option Json) (href : Json)
    (bid : String) (points rings : List Json) (rest : List Json)
    (acc : List (Json × Json))
    (hnet : net href = some (mkDetails (Json.str bid) (Json.arr points) rings)) :
    fetchBuildingLoop net (mkSummary href :: rest) acc =
      if points.length > 2 ∧ bid ≠ "" then
        fetchBuildingLoop net rest
          (dictInsert acc (Json.str bid) (Json.arr points))
      else fetchBuildingLoop net rest acc := by
  simp [fetchBuildingLoop, mkSummary, mkDetails, Json.index, lookupField,
    hnet, Json.indexNat, Json.len, Json.truthy, Json.hashable]

/-- Processing one summary whose detail GET fails leaves the accumulator
untouched and continues with the remaining records. -/
theorem fetchBuildingLoop_skip (net : Json → Option Json) (href : Json)
    (rest : List Json) (acc : List (Json × Json)) (hnet : net href = none) :
    fetchBuildingLoop net (mkSummary href :: rest) acc =
      fetchBuildingLoop net rest acc := by
  simp [fetchBuildingLoop, mkSummary, Json.index, lookupField, hnet]

/-- C3: a processed building detail record is retained iff its polygon has
more than 2 points and its identifier is non-empty; when retained, the key
is exactly that identifier and the value exactly that point sequence (so a
2-point polygon is excluded). -/
theorem fetch_building_polygons_filter (net : Json → Option Json)
    (href : Json) (bid : String) (points rings : List Json)
    (hnet : net href = some (mkDetails (Json.str bid) (Json.arr points) rings)) :
    fetch_building_polygons net [mkSummary href] =
      Except.ok (if points.length > 2 ∧ bid ≠ "" then
        [(Json.str bid, Json.arr points)] else []) := by
  rw [fetch_building_polygons,
    fetchBuildingLoop_step net href bid points rings [] [] hnet]
  by_cases hc : points.length > 2 ∧ bid ≠ ""
  · simp [hc, fetchBuildingLoop, dictInsert]
  · simp [hc, fetchBuildingLoop]

/-- Network serving one well-formed detail record, for the filter witness. -/
def buildingsNetOne : Json → Option Json := fun _ =>
  some (mkDetails (Json.str "B1")
    (Json.arr [Json.num 0, Json.num 1, Json.num 2]) [])

/-- Witness for C3: a 3-point polygon with non-empty identifier is retained
with exactly that key and point sequence. -/
theorem fetch_building_polygons_filter_witness :
    fetch_building_polygons buildingsNetOne [mkSummary (Json.str "u")] =
      Except.ok [(Json.str "B1",
        Json.arr [Json.num 0, Json.num 1, Json.num 2])] := by
  have h := fetch_building_polygons_filter buildingsNetOne (Json.str "u")
    "B1" [Json.num 0, Json.num 1, Json.num 2] [] rfl
  simpa using h

/-- C4: a failed detail GET skips exactly that record; with 3 summaries whose
2nd detail fetch fails, the mapping holds entries for the 1st and 3rd only. -/
theorem fetch_building_polygons_skips_failures (net : Json → Option Json)
    (h1 h2 h3 : Json) (b1 b3 : String) (p1 p3 r1 r3 : List Json)
    (hn1 : net h1 = some (mkDetails (Json.str b1) (Json.arr p1) r1))
    (hn2 : net h2 = none)
    (hn3 : net h3 = some (mkDetails (Json.str b3) (Json.arr p3) r3))
    (hp1 : p1.length > 2) (hb1 : b1 ≠ "")
    (hp3 : p3.length > 2) (hb3 : b3 ≠ "") (hne : b1 ≠ b3) :
    fetch_building_polygons net [mkSummary h1, mkSummary h2, mkSummary h3] =
      Except.ok [(Json.str b1, Json.arr p1), (Json.str b3, Json.arr p3)] := by
  rw [fetch_building_polygons,
    fetchBuildingLoop_step net h1 b1 p1 r1 _ _ hn1, if_pos ⟨hp1, hb1⟩,
    fetchBuildingLoop_skip net h2 _ _ hn2,
    fetchBuildingLoop_step net h3 b3 p3 r3 _ _ hn3, if_pos ⟨hp3, hb3⟩]
  simp [fetchBuildingLoop, dictInsert, keyEqb, hne]

/-- Network for the batch-partial-failure witness: details at `u1` and `u3`,
failure at every other URL. -/
def buildingsNetSkip : Json → Option Json := fun j =>
  match j with
  | .str s =>
    if s = "u1" then
      some (mkDetails (Json.str "B1")
        (Json.arr [Json.num 0, Json.num 1, Json.num 2]) [])
    else if s = "u3" then
      some (mkDetails (Json.str "B3")
        (Json.arr [Json.num 3, Json.num 4, Json.num 5]) [])
    else none
  | _ => none

/-- Witness for C4: with three summaries whose second detail GET fails, the
result holds the first and third entries only. -/
theorem fetch_building_polygons_skips_failures_witness :
    fetch_building_polygons buildingsNetSkip
      [mkSummary (Json.str "u1"), mkSummary (Json.str "u2"),
        mkSummary (Json.str "u3")] =
      Except.ok [(Json.str "B1", Json.arr [Json.num 0, Json.num 1, Json.num 2]),
        (Json.str "B3", Json.arr [Json.num 3, Json.num 4, Json.num 5])] := by
  have h := fetch_building_polygons_skips_failures buildingsNetSkip
    (Json.str "u1") (Json.str "u2") (Json.str "u3") "B1" "B3"
    [Json.num 0, Json.num 1, Json.num 2] [Json.num 3, Json.num 4, Json.num 5]
    [] [] rfl rfl rfl (by decide) (by decide) (by decide) (by decide)
    (by decide)
  simpa using h

/-- C9: when two processed detail records carry the same identifier and both
pass the retention filter, the mapping holds a single entry for that
identifier whose polygon comes from the later record. -/
theorem fetch_building_polygons_last_write_wins (net : Json → Option Json)
    (h1 h2 : Json) (b : String) (p1 p2 r1 r2 : List Json)
    (hn1 : net h1 = some (mkDetails (Json.str b) (Json.arr p1) r1))
    (hn2 : net h2 = some (mkDetails (Json.str b) (Json.arr p2) r2))
    (hp1 : p1.length > 2) (hp2 : p2.length > 2) (hb : b ≠ "") :
    fetch_building_polygons net [mkSummary h1, mkSummary h2] =
      Except.ok [(Json.str b, Json.arr p2)] := by
  rw [fetch_building_polygons,
    fetchBuildingLoop_step net h1 b p1 r1 _ _ hn1, if_pos ⟨hp1, hb⟩,
    fetchBuildingLoop_step net h2 b p2 r2 _ _ hn2, if_pos ⟨hp2, hb⟩]
  simp [fetchBuildingLoop, dictInsert, keyEqb]

/-- Network for the duplicate-identifier witness: two details sharing the
identifier `B`. -/
def buildingsNetDup : Json → Option Json := fun j =>
  match j with
  | .str s =>
    if s = "u1" then
      some (mkDetails (Json.str "B")
        (Json.arr [Json.num 0, Json.num 1, Json.num 2]) [])
    else if s = "u2" then
      some (mkDetails (Json.str "B")
        (Json.arr [Json.num 6, Json.num 7, Json.num 8]) [])
    else none
  | _ => none

/-- Witness for C9: two records with identifier `B` leave a single entry
holding the second polygon. -/
theorem fetch_building_polygons_last_write_wins_witness :
    fetch_building_polygons buildingsNetDup
      [mkSummary (Json.str "u1"), mkSummary (Json.str "u2")] =
      Except.ok [(Json.str "B",
        Json.arr [Json.num 6, Json.num 7, Json.num 8])] := by
  have h := fetch_building_polygons_last_write_wins buildingsNetDup
    (Json.str "u1") (Json.str "u2") "B"
    [Json.num 0, Json.num 1, Json.num 2] [Json.num 6, Json.num 7, Json.num 8]
    [] [] rfl rfl (by decide) (by decide) (by decide)
  simpa using h

/-- C5: `send_get_request` returns the absent value (no exception reaching
the caller) on any transport-level failure and on any HTTP status error
raised by `raise_for_status`, and returns the parsed JSON body on a
successful 2xx response. -/
theorem send_get_request_spec (http : String → HttpOutcome)
    (parse : String → Except PyErr Json) (url : String) :
    (http url = HttpOutcome.transportError →
      send_get_request http parse url = Except.ok none) ∧
    (∀ status body, http url = HttpOutcome.response status body →
      400 ≤ status → status < 600 →
      send_get_request http parse url = Except.ok none) ∧
    (∀ status body j, http url = HttpOutcome.response status body →
      200 ≤ status → status < 300 → parse body = Except.ok j →
      send_get_request http parse url = Except.ok (some j)) := by
  refine ⟨?_, ?_, ?_⟩
  · intro h
    simp [send_get_request, h]
  · intro status body h h4 h6
    simp only [send_get_request, h]
    rw [if_pos ⟨h4, h6⟩]
  · intro status body j h h2 h3 hp
    have hno : ¬(400 ≤ status ∧ status < 600) := by omega
    simp only [send_get_request, h]
    rw [if_neg hno, hp]

/-- Witness for C5: a transport failure and a 404 yield the absent value, a
200 with parseable body yields the parsed value. -/
theorem send_get_request_spec_witness :
    send_get_request (fun _ => HttpOutcome.transportError)
      (fun _ => Except.ok Json.null) "u" = Except.ok none ∧
    send_get_request (fun _ => HttpOutcome.response 404 "b")
      (fun _ => Except.ok Json.null) "u" = Except.ok none ∧
    send_get_request (fun _ => HttpOutcome.response 200 "b")
      (fun _ => Except.ok Json.null) "u" = Except.ok (some Json.null) := by
  refine ⟨?_, ?_, ?_⟩
  · exact (send_get_request_spec (fun _ => HttpOutcome.transportError)
      (fun _ => Except.ok Json.null) "u").1 rfl
  · exact (send_get_request_spec (fun _ => HttpOutcome.response 404 "b")
      (fun _ => Except.ok Json.null) "u").2.1 404 "b" rfl (by decide)
      (by decide)
  · exact (send_get_request_spec (fun _ => HttpOutcome.response 200 "b")
      (fun _ => Except.ok Json.null) "u").2.2 200 "b" Json.null rfl
      (by decide) (by decide) rfl

/-- C6: when the detail GET for a panorama ID returns the absent value,
`fetch_panorama_image` returns the pair (absent, absent) as a normal result
rather than raising. -/
theorem fetch_panorama_image_absent {Img : Type} (net : Json → Option Json)
    (imgFetch : Json → Except PyErr Img) (pano_id : String)
    (h : net (Json.str (panoDetailUrl pano_id)) = none) :
    fetch_panorama_image net imgFetch pano_id = Except.ok (none, none) := by
  simp [fetch_panorama_image, h]

/-- Witness for C6: a network that always fails yields (absent, absent). -/
theorem fetch_panorama_image_absent_witness :
    fetch_panorama_image (fun _ => none) (fun _ => Except.ok ()) "p1" =
      Except.ok (none, none) :=
  fetch_panorama_image_absent (fun _ => none) (fun _ => Except.ok ()) "p1" rfl

/-- C8: when the GET inside `search_buildings` fails, the absent result is
immediately indexed for `results` without a guard, so the failure surfaces
as an uncaught TypeError at the caller instead of an absent result. -/
theorem search_buildings_unguarded (net : Json → Option Json)
    (observer : Int × Int) (radius : Int)
    (h : net (Json.str (constructBagUrl observer radius)) = none) :
    search_buildings net observer radius = Except.error PyErr.typeError := by
  simp [search_buildings, h, optToPy, Json.index]

/-- Witness for C8: with an always-failing network the search raises. -/
theorem search_buildings_unguarded_witness :
    search_buildings (fun _ => none) (1, 2) 50 =
      Except.error PyErr.typeError :=
  search_buildings_unguarded (fun _ => none) (1, 2) 50 rfl

/-- C10: `fetch_panorama_ids` only guards against the absent value: a
successful page lacking the `_embedded` structure, or a page whose entry
lacks `pano_id`, makes the fetch raise a KeyError instead of terminating
with the partial result. -/
theorem fetch_panorama_ids_unguarded_lookups (net1 net2 : Json → Option Json)
    (mission_year : Int) (bbox : Int × Int × Int × Int) (fuel : Nat)
    (fields : List (String × Json))
    (h1 : net1 (Json.str (construct_pano_url mission_year bbox)) =
      some (Json.obj fields))
    (hf : lookupField fields "_embedded" = none)
    (h2 : net2 (Json.str (construct_pano_url mission_year bbox)) =
      some (Json.obj [("_embedded", Json.obj [("panoramas",
        Json.arr [Json.obj []])]), ("_links", Json.obj [])])) :
    fetch_panorama_ids net1 (fuel + 1) mission_year bbox =
      some (Except.error PyErr.keyError) ∧
    fetch_panorama_ids net2 (fuel + 1) mission_year bbox =
      some (Except.error PyErr.keyError) := by
  have htr : (Json.str (construct_pano_url mission_year bbox)).truthy
      = true := by
    simp [Json.truthy, construct_pano_url_ne_empty mission_year bbox]
  constructor
  · rw [fetch_panorama_ids, fetchPanoLoop]
    simp [htr, h1, pageStep, Json.index, hf]
  · rw [fetch_panorama_ids, fetchPanoLoop]
    simp [htr, h2, pageStep, Json.index, lookupField, Json.iterElems,
      panoIdsOf]

/-- Network serving a page without `_embedded`. -/
def panoNetNoEmbedded : Json → Option Json := fun _ => some (Json.obj [])

/-- Network serving a page whose only panorama entry lacks `pano_id`. -/
def panoNetNoPanoId : Json → Option Json := fun _ =>
  some (Json.obj [("_embedded", Json.obj [("panoramas",
    Json.arr [Json.obj []])]), ("_links", Json.obj [])])

/-- Witness for C10: both malformed pages raise a KeyError. -/
theorem fetch_panorama_ids_unguarded_lookups_witness :
    fetch_panorama_ids panoNetNoEmbedded 1 2021 (1, 2, 3, 4) =
      some (Except.error PyErr.keyError) ∧
    fetch_panorama_ids panoNetNoPanoId 1 2021 (1, 2, 3, 4) =
      some (Except.error PyErr.keyError) :=
  fetch_panorama_ids_unguarded_lookups panoNetNoEmbedded panoNetNoPanoId
    2021 (1, 2, 3, 4) 0 [] rfl rfl rfl
